import Mathlib

/-!
Verification of the ZoomToApp pipeline (an AI-driven SDLC automation demo)
against its natural-language specification.

The Python sources are shallowly embedded: every external effect (the
speech-to-text backend, the language-model backend, filesystem writes) is
abstracted by an explicit environment value describing its outcome, and each
Python function becomes a total Lean function of that environment.  Python
dicts become insertion-ordered association lists, Python floats become exact
rationals, and a `try/except` block becomes a case split on the environment's
failure outcome.
-/

namespace ZoomToApp

/-! ## Association lists with Python-dict semantics

Python dicts keep insertion order; assigning to an existing key updates the
value in place, assigning to a fresh key appends it at the end.  `dictSet`
mirrors `d[k] = v`, `dictGet` mirrors `d.get(k, default)`. -/

def dictSet {α : Type} (k : String) (v : α) : List (String × α) → List (String × α)
  | [] => [(k, v)]
  | (k', v') :: rest => if k' = k then (k, v) :: rest else (k', v') :: dictSet k v rest

def dictGet {α : Type} (k : String) (d : List (String × α)) (default : α) : α :=
  match d.lookup k with
  | some v => v
  | none => default

def dictKeys {α : Type} (d : List (String × α)) : List String :=
  d.map Prod.fst

/-! ## Transcriber (src/transcriber.py)

`AudioTranscriber.transcribe(audio_path)`.  The environment records what the
outside world does on this call:
  * `txt content` — the path ends in `.txt` and reading the file yields
    `content` (the demo bypass branch);
  * `audioOk text` — Whisper is importable, the model loads and
    `model.transcribe` returns `text`;
  * `audioUnavailable` — the `whisper` import failed, so `self.model` stays
    `None` and the transcript starts out empty;
  * `raises` — some step inside the `try` block raises an exception.
Python's `str.strip()` is embedded as `pyStrip`. -/

inductive TranscribeEnv where
  | txt (content : String)
  | audioOk (text : String)
  | audioUnavailable
  | raises
deriving DecidableEq, Repr

/-- The whitespace characters removed by Python's `str.strip()` (the ASCII
ones: space, tab, newline, carriage return, vertical tab, form feed). -/
def isPySpace (c : Char) : Bool :=
  c = ' ' || c = '\t' || c = '\n' || c = '\r' || c = Char.ofNat 11 || c = Char.ofNat 12

/-- Python's `str.strip()`: drop leading and trailing whitespace. -/
def pyStrip (s : String) : String :=
  String.mk (((s.data.dropWhile isPySpace).reverse.dropWhile isPySpace).reverse)

/-- The sample transcript substituted inside the `try` block when the
transcript comes out empty (transcriber.py lines 82-89). -/
def sampleTranscript : String :=
  "\n                We need to build a todo list application. Users should be able to add new tasks, \n                view all their tasks, mark tasks as completed, and delete tasks they no longer need. \n                The app should have a clean, simple interface that's easy to use. We want to store \n                the tasks in a database so they persist between sessions.\n                "

/-- The sample transcript returned from the `except` handler of
`transcribe` (transcriber.py lines 97-106).  Same sentences as
`sampleTranscript` but with the except-branch indentation baked into the
Python triple-quoted literal. -/
def exceptFallbackTranscript : String :=
  "\n            We need to build a todo list application. Users should be able to add new tasks, \n            view all their tasks, mark tasks as completed, and delete tasks they no longer need. \n            The app should have a clean, simple interface that's easy to use. We want to store \n            the tasks in a database so they persist between sessions.\n            "

/-- `AudioTranscriber.transcribe` (transcriber.py lines 49-106): the `.txt`
bypass reads and strips the file content, the Whisper path strips
`result['text']`, the no-Whisper path leaves the transcript empty; any empty
transcript is then replaced by `sampleTranscript`, and an exception anywhere
in the `try` block yields `exceptFallbackTranscript`. -/
def transcribe : TranscribeEnv → String
  | .txt content =>
      let t := pyStrip content
      if t = "" then sampleTranscript else t
  | .audioOk text =>
      let t := pyStrip text
      if t = "" then sampleTranscript else t
  | .audioUnavailable => sampleTranscript
  | .raises => exceptFallbackTranscript

/-! ## Story generator (src/story_generator.py)

`StoryGenerator.generate_stories(transcript)` issues two language-model
prompts and parses the stories response as JSON.  The environment records the
backend's behaviour on this call:
  * `raises` — a call into the backend (either prompt) raises, landing in the
    outer `except` handler;
  * `responds p arch` — both prompts return; `arch` is the architecture
    response's content and `p` describes what `json.loads` makes of the
    stories response's content. -/

inductive StoriesParse where
  | decodeError
  | parsed (stories : Option (List String))
deriving DecidableEq, Repr

inductive StoryBackend where
  | raises
  | responds (p : StoriesParse) (arch : String)
deriving DecidableEq, Repr

structure StoriesResult where
  stories : List String
  architecture : String
deriving DecidableEq, Repr

/-- `StoryGenerator._get_fallback_stories` (story_generator.py lines 97-106). -/
def fallbackStories : List String :=
  [ "As a user, I want to create new todo tasks so that I can track what I need to do"
  , "As a user, I want to view all my todo tasks so that I can see my current workload"
  , "As a user, I want to mark tasks as completed so that I can track my progress"
  , "As a user, I want to delete tasks so that I can remove items I no longer need"
  , "As a user, I want to edit existing tasks so that I can update task details"
  , "As a user, I want a clean interface so that the app is easy to use" ]

/-- `StoryGenerator._get_fallback_architecture` (story_generator.py lines 108-131). -/
def fallbackArchitecture : String :=
  "\n        ## System Architecture\n\n        **Frontend (React)**\n        - TodoApp component (main container)\n        - TodoList component (displays tasks)\n        - TodoItem component (individual task)\n        - AddTodo component (form to add tasks)\n\n        **Backend (Express.js)**\n        - GET /api/todos - fetch all todos\n        - POST /api/todos - create new todo\n        - PUT /api/todos/:id - update todo\n        - DELETE /api/todos/:id - delete todo\n\n        **Database (SQLite)**\n        - todos table: id, title, description, completed, created_at\n\n        **Deployment**\n        - Frontend: Vercel\n        - Backend: Railway/Heroku\n        "

/-- `StoryGenerator.generate_stories` (story_generator.py lines 20-95).  On a
backend exception both fields fall back.  Otherwise `json.loads` either raises
`JSONDecodeError` (→ fallback stories) or yields a JSON object on which
`stories_data.get('stories', [])` returns the list at key `stories`, or `[]`
when the key is missing; the architecture is the backend's prose either way.
The `transcript` argument only parameterises the prompts sent to the external
backend, whose response the environment already fixes. -/
def generate_stories (backend : StoryBackend) (transcript : String) : StoriesResult :=
  let _ := transcript
  match backend with
  | .raises =>
      { stories := fallbackStories, architecture := fallbackArchitecture }
  | .responds p arch =>
      let stories :=
        match p with
        | .decodeError => fallbackStories
        | .parsed none => ([] : List String)
        | .parsed (some l) => l
      { stories := stories, architecture := arch }

/-! ## Filesystem outcome

`FSOutcome` abstracts the outcome of the filesystem work a component attempts
inside one `try` block: `ok` means every write succeeded, `raises msg` means
some operation raised an exception whose `str()` is `msg`. -/

inductive FSOutcome where
  | ok
  | raises (msg : String)
deriving DecidableEq, Repr

/-! ## Test runner (src/.storage/13/a91559de/test_runner.py) -/

structure TestResult where
  passed : Bool
  coverage : ℚ
  output : String
deriving DecidableEq, Repr

/-- The initial per-target value in `run_tests` and in each helper
(test_runner.py lines 24-27, 49, 116). -/
def defaultTestResult : TestResult :=
  { passed := false, coverage := 0, output := "" }

/-- `TestRunner._test_frontend` (test_runner.py lines 47-124): writes a static
test file and patches package.json; if everything succeeds the result is the
hardcoded success triple, and any exception leaves the default result with an
error message. -/
def test_frontend (fs : FSOutcome) : TestResult :=
  match fs with
  | .ok =>
      { passed := true, coverage := 85
      , output := "All frontend tests passed successfully!" }
  | .raises msg =>
      { defaultTestResult with output := "Frontend test error: " ++ msg }

/-- `TestRunner._test_backend` (test_runner.py lines 126-179): same shape with
coverage 90 and the backend messages. -/
def test_backend (fs : FSOutcome) : TestResult :=
  match fs with
  | .ok =>
      { passed := true, coverage := 90
      , output := "All backend tests passed successfully!" }
  | .raises msg =>
      { defaultTestResult with output := "Backend test error: " ++ msg }

/-- `TestRunner.run_tests` (test_runner.py lines 14-45): the results dict is
initialised with both keys at the default value, then each key is overwritten
with its helper's result.  The helpers catch their own exceptions, so the
outer `except` is unreachable and both keys are always overwritten.  The
`project_path` argument only names where the helpers write; the outcome of
those writes is the `fs` environment. -/
def run_tests (frontendFs backendFs : FSOutcome) (project_path : String) :
    List (String × TestResult) :=
  let _ := project_path
  let results := [("frontend", defaultTestResult), ("backend", defaultTestResult)]
  let results := dictSet "frontend" (test_frontend frontendFs) results
  dictSet "backend" (test_backend backendFs) results

/-! ## Deployer (src/.storage/14/e94970da/deployer.py) -/

/-- `AppDeployer._deploy_frontend` (deployer.py lines 51-88): writes
vercel.json and returns the simulated URL; the `except` handler returns the
very same URL string. -/
def deploy_frontend (fs : FSOutcome) (app_name : String) : String :=
  match fs with
  | .ok => "https://" ++ app_name ++ ".vercel.app"
  | .raises _ => "https://" ++ app_name ++ ".vercel.app"

/-- `AppDeployer._deploy_backend` (deployer.py lines 90-134): writes a
Dockerfile and railway.json and returns the simulated URL; the `except`
handler returns the very same URL string. -/
def deploy_backend (fs : FSOutcome) (app_name : String) : String :=
  match fs with
  | .ok => "https://" ++ app_name ++ ".railway.app"
  | .raises _ => "https://" ++ app_name ++ ".railway.app"

/-- `AppDeployer.deploy_app` (deployer.py lines 14-49): `urls` starts empty;
the frontend URL is inserted, then the backend URL.  The helpers catch their
own exceptions, so the outer `except` is unreachable. -/
def deploy_app (frontendFs backendFs : FSOutcome) (project_path project_name : String) :
    List (String × String) :=
  let _ := project_path
  let urls : List (String × String) := []
  let urls := dictSet "frontend" (deploy_frontend frontendFs (project_name ++ "-frontend")) urls
  dictSet "backend" (deploy_backend backendFs (project_name ++ "-backend")) urls

/-! ## Pipeline state (zoom_to_app.py lines 46-54)

The shared dict `self.state`.  Python floats are embedded as exact rationals. -/

structure PipelineState where
  transcript : String
  user_stories : List String
  architecture : String
  generated_code : List (String × String)
  test_results : List (String × TestResult)
  deployment_urls : List (String × String)
  metrics : List (String × ℚ)
deriving DecidableEq, Repr

/-- The state built in `ZoomToAppPipeline.__init__`: every field empty. -/
def initialState : PipelineState :=
  { transcript := ""
  , user_stories := []
  , architecture := ""
  , generated_code := []
  , test_results := []
  , deployment_urls := []
  , metrics := [] }

/-! ## Report generator (src/.storage/16/72151ac5/report_generator.py) -/

structure ReportMetrics where
  time_saved_hours : ℚ
  cost_saved : ℚ
  avg_coverage : ℚ
deriving DecidableEq, Repr

/-- The derived-metric computations of
`ReportGenerator._create_report_content` (report_generator.py lines 36-52):
`execution_time = state['metrics'].get('execution_time', 0)`,
`time_saved_hours = 40 - execution_time / 3600`,
`cost_saved = time_saved_hours * 150`, and the average of the two coverages
read with `.get(..., {}).get('coverage', 0)` defaults.  The rest of the
method renders these numbers into a fixed markdown template. -/
def create_report_content_metrics (state : PipelineState) : ReportMetrics :=
  let execution_time := dictGet "execution_time" state.metrics 0
  let manual_hours : ℚ := 40
  let developer_rate : ℚ := 150
  let time_saved_hours := manual_hours - execution_time / 3600
  let cost_saved := time_saved_hours * developer_rate
  let frontend_coverage :=
    (dictGet "frontend" state.test_results defaultTestResult).coverage
  let backend_coverage :=
    (dictGet "backend" state.test_results defaultTestResult).coverage
  let avg_coverage := (frontend_coverage + backend_coverage) / 2
  { time_saved_hours := time_saved_hours
  , cost_saved := cost_saved
  , avg_coverage := avg_coverage }

/-- `ReportGenerator.generate_report` (report_generator.py lines 13-34):
renders the report and writes it to `output_path`, returning the path; any
exception in rendering or writing is caught and the empty string is returned.
The state is only read.  `fs` abstracts the outcome of the `try` block. -/
def generate_report (fs : FSOutcome) (state : PipelineState) (output_path : String) : String :=
  let _ := create_report_content_metrics state
  match fs with
  | .ok => output_path
  | .raises _ => ""

/-! ## Orchestrator (zoom_to_app.py lines 56-110)

`Env` gathers every external outcome one `run` call can observe.
`generate_app` stands for `CodeGenerator.generate_app`; code_generator.py is
not among the sources, but the orchestrator only stores its return value in
`state['generated_code']` and never hands it the state, so its result is an
arbitrary environment-supplied mapping of the arguments the orchestrator
passes (stories, project name, output directory). -/

structure Env where
  transcribeEnv : TranscribeEnv
  storyBackend : StoryBackend
  generate_app : List String → String → String → List (String × String)
  testFrontendFs : FSOutcome
  testBackendFs : FSOutcome
  deployFrontendFs : FSOutcome
  deployBackendFs : FSOutcome
  reportFs : FSOutcome
  output_dir : String
  execution_time : ℚ

/-- Step 1: `self.state['transcript'] = self.transcriber.transcribe(audio_file)`. -/
def stage1_transcription (env : Env) (s : PipelineState) : PipelineState :=
  { s with transcript := transcribe env.transcribeEnv }

/-- Step 2: `stories_result = self.story_generator.generate_stories(...)`;
`self.state['user_stories'] = stories_result['stories']`;
`self.state['architecture'] = stories_result['architecture']`. -/
def stage2_stories (env : Env) (s : PipelineState) : PipelineState :=
  let stories_result := generate_stories env.storyBackend s.transcript
  { s with
    user_stories := stories_result.stories
  , architecture := stories_result.architecture }

/-- Step 3: `self.state['generated_code'] = self.code_generator.generate_app(
self.state['user_stories'], project_name, str(self.output_dir))`. -/
def stage3_codegen (env : Env) (project_name : String) (s : PipelineState) : PipelineState :=
  { s with generated_code := env.generate_app s.user_stories project_name env.output_dir }

/-- Step 4: `self.state['test_results'] = self.test_runner.run_tests(
str(self.output_dir / project_name))`. -/
def stage4_tests (env : Env) (project_name : String) (s : PipelineState) : PipelineState :=
  { s with test_results :=
      run_tests env.testFrontendFs env.testBackendFs (env.output_dir ++ "/" ++ project_name) }

/-- Step 5: `self.state['deployment_urls'] = self.deployer.deploy_app(
str(self.output_dir / project_name), project_name)`. -/
def stage5_deploy (env : Env) (project_name : String) (s : PipelineState) : PipelineState :=
  let urls := deploy_app env.deployFrontendFs env.deployBackendFs
    (env.output_dir ++ "/" ++ project_name) project_name
  { s with deployment_urls := urls }

/-- Step 6 state update: `self.state['metrics']['execution_time'] =
execution_time`; the subsequent `generate_report` call only reads the state. -/
def stage6_metrics (env : Env) (s : PipelineState) : PipelineState :=
  { s with metrics := dictSet "execution_time" env.execution_time s.metrics }

/-- `ZoomToAppPipeline.run` (zoom_to_app.py lines 56-110): the six stages in
order on the state created at construction; the report path is computed but
only logged, and the final state is returned.  Nothing inside the `try` block
raises under the embedded per-component contracts, so `run` is total. -/
def run (env : Env) (project_name : String) : PipelineState :=
  let s := initialState
  let s := stage1_transcription env s
  let s := stage2_stories env s
  let s := stage3_codegen env project_name s
  let s := stage4_tests env project_name s
  let s := stage5_deploy env project_name s
  let s := stage6_metrics env s
  let _report_path := generate_report env.reportFs s (env.output_dir ++ "/" ++ "report.md")
  s

/-! ## Spec-side definitions

These follow the specification's words, to be compared with the embedded
code. -/

/-- The spec's deployment URL template
https://{projectName}-{frontend|backend}.{platform}.app. -/
def specDeployUrl (project_name target platform : String) : String :=
  "https://" ++ project_name ++ "-" ++ target ++ "." ++ platform ++ ".app"

/-- The spec's formula timeSavedHours = manualHoursEstimate(40) -
executionTimeSeconds/3600. -/
def spec_timeSavedHours (executionTimeSeconds : ℚ) : ℚ :=
  40 - executionTimeSeconds / 3600

/-- The spec's formula costSaved = timeSavedHours * hourlyRate(150). -/
def spec_costSaved (executionTimeSeconds : ℚ) : ℚ :=
  spec_timeSavedHours executionTimeSeconds * 150

/-- The spec's formula avgCoverage = mean(frontendCoverage, backendCoverage). -/
def spec_avgCoverage (frontendCoverage backendCoverage : ℚ) : ℚ :=
  (frontendCoverage + backendCoverage) / 2

/-- The language-model outcome under which `generate_stories` produces an
empty story list: the stories response parses as JSON but its `stories` entry
is missing or empty (so `.get('stories', [])` yields `[]` and no fallback
fires). -/
def parsesToEmptyOrMissingStories : StoryBackend → Bool
  | .responds (.parsed none) _ => true
  | .responds (.parsed (some l)) _ => l.isEmpty
  | _ => false

/-- A concrete environment for witnesses and counterexamples: a `.txt` demo
input, a failing language-model backend, and every filesystem write
succeeding. -/
def demoEnv : Env :=
  { transcribeEnv := .txt "build a todo app"
  , storyBackend := .raises
  , generate_app := fun _ _ _ => []
  , testFrontendFs := .ok
  , testBackendFs := .ok
  , deployFrontendFs := .ok
  , deployBackendFs := .ok
  , reportFs := .ok
  , output_dir := "./output"
  , execution_time := 2 }

/-! ## Claims -/

/-- Claim C1, counterexample: when the language-model response parses as JSON
but carries an empty `stories` list, `run` returns a state whose
`user_stories` is empty — the fallback does not fire, refuting the claimed
non-emptiness invariant at this concrete input. -/
theorem c1_counterexample_empty_user_stories :
    (run { demoEnv with storyBackend := .responds (.parsed (some [])) "arch prose" }
      "todo-app").user_stories = [] := rfl

/-- Claim C1, amended: `run` returns a state with non-empty `user_stories`
unless the stories response parses as JSON with an empty or missing `stories`
entry; in particular the fallback guarantees non-emptiness when the backend
raises or when JSON decoding fails. -/
theorem c1_user_stories_nonempty_unless_parsed_empty
    (env : Env) (project_name : String)
    (h : parsesToEmptyOrMissingStories env.storyBackend = false) :
    (run env project_name).user_stories ≠ [] := by
  show (generate_stories env.storyBackend (transcribe env.transcribeEnv)).stories ≠ []
  cases hsb : env.storyBackend with
  | raises => simp [generate_stories, fallbackStories]
  | responds p arch =>
    cases p with
    | decodeError => simp [generate_stories, fallbackStories]
    | parsed o =>
      cases o with
      | none => rw [hsb] at h; simp [parsesToEmptyOrMissingStories] at h
      | some l =>
        rw [hsb] at h
        simp only [parsesToEmptyOrMissingStories, List.isEmpty_iff] at h
        simpa [generate_stories] using h

/-- Claim C1, witness for the amended theorem at a concrete environment. -/
theorem c1_witness :
    parsesToEmptyOrMissingStories
      ({ demoEnv with
          storyBackend := .responds (.parsed (some ["As a user, I want one story"])) "arch"
        } : Env).storyBackend = false ∧
    (run { demoEnv with
            storyBackend := .responds (.parsed (some ["As a user, I want one story"])) "arch" }
      "todo-app").user_stories ≠ [] :=
  ⟨by decide
  , c1_user_stories_nonempty_unless_parsed_empty
      { demoEnv with
        storyBackend := .responds (.parsed (some ["As a user, I want one story"])) "arch" }
      "todo-app" (by decide)⟩

/-- Claim C2: after `run`, the test-results and deployment-URLs dicts have
exactly the keys frontend and backend in that order, every test entry's
`passed` is a boolean by construction, and every coverage lies in [0, 100] —
for every environment, including filesystem failures inside the helpers. -/
theorem c2_result_maps_shape :
    ∀ (env : Env) (project_name : String),
      dictKeys (run env project_name).test_results = ["frontend", "backend"] ∧
      dictKeys (run env project_name).deployment_urls = ["frontend", "backend"] ∧
      ((run env project_name).test_results.all fun kv =>
        decide (0 ≤ kv.2.coverage) && decide (kv.2.coverage ≤ 100)) = true := by
  intro env project_name
  refine ⟨?_, ?_, ?_⟩ <;>
    cases hf : env.testFrontendFs <;> cases hb : env.testBackendFs <;>
      simp [run, stage1_transcription, stage2_stories, stage3_codegen, stage4_tests,
        stage5_deploy, stage6_metrics, run_tests, deploy_app, dictSet, dictKeys,
        test_frontend, test_backend, defaultTestResult, hf, hb] <;>
      norm_num

/-- Claim C3, counterexample: when writing the frontend test file raises (for
instance because the project path's frontend/src directory does not exist),
the frontend entry reports failure with coverage 0 and an error message — the
runner does not report success for every project path. -/
theorem c3_counterexample_failing_write :
    run_tests (.raises "No such file or directory") .ok "./output/todo-app" =
      [ ("frontend", { passed := false, coverage := 0
                     , output := "Frontend test error: No such file or directory" })
      , ("backend", { passed := true, coverage := 90
                    , output := "All backend tests passed successfully!" }) ] := rfl

/-- Claim C3, amended: whenever the test-file writes succeed, the runner
reports the hardcoded success results — passed with coverage 85 (frontend)
and 90 (backend) and fixed messages — independently of the project path, so
no real test execution takes place. -/
theorem c3_run_tests_simulated_success :
    ∀ project_path : String,
      run_tests .ok .ok project_path =
        [ ("frontend", { passed := true, coverage := 85
                       , output := "All frontend tests passed successfully!" })
        , ("backend", { passed := true, coverage := 90
                      , output := "All backend tests passed successfully!" }) ] := by
  intro project_path
  rfl

/-- Claim C4: for every environment (whether or not the deployment-config
writes succeed), project path and project name, the deployment dict maps
frontend and backend to exactly the spec's templated URLs
https://{projectName}-frontend.vercel.app and
https://{projectName}-backend.railway.app. -/
theorem c4_deploy_urls_template :
    ∀ (frontendFs backendFs : FSOutcome) (project_path project_name : String),
      deploy_app frontendFs backendFs project_path project_name =
        [ ("frontend", specDeployUrl project_name "frontend" "vercel")
        , ("backend", specDeployUrl project_name "backend" "railway") ] := by
  intro frontendFs backendFs project_path project_name
  cases frontendFs <;> cases backendFs <;>
    simp [deploy_app, deploy_frontend, deploy_backend, dictSet, specDeployUrl,
      String.append_assoc]

/-- Claim C5: a backend exception makes `generate_stories` return the fixed
fallback stories and the fixed fallback architecture; a JSON-decoding failure
alone substitutes the fallback stories while keeping the backend's
architecture prose. -/
theorem c5_story_generator_fallbacks :
    ∀ (transcript arch : String),
      generate_stories .raises transcript =
        { stories := fallbackStories, architecture := fallbackArchitecture } ∧
      generate_stories (.responds .decodeError arch) transcript =
        { stories := fallbackStories, architecture := arch } := by
  intro transcript arch
  exact ⟨rfl, rfl⟩

/-- Claim C6: `transcribe` never returns an empty transcript; when Whisper is
unavailable or the backend yields only whitespace the sample fallback
transcript is substituted, and an exception yields the handler's fallback
transcript — a single attempt, no retry. -/
theorem c6_transcribe_never_empty :
    (∀ env : TranscribeEnv, transcribe env ≠ "") ∧
    transcribe .audioUnavailable = sampleTranscript ∧
    transcribe .raises = exceptFallbackTranscript ∧
    (∀ text : String, pyStrip text = "" → transcribe (.audioOk text) = sampleTranscript) := by
  refine ⟨?_, rfl, rfl, ?_⟩
  · intro env
    cases env with
    | txt c =>
        simp only [transcribe]
        split
        · decide
        · next h => exact h
    | audioOk s =>
        simp only [transcribe]
        split
        · decide
        · next h => exact h
    | audioUnavailable => decide
    | raises => decide
  · intro text h
    simp only [transcribe, h]
    rfl

/-- Claim C6, witness at a whitespace-only backend transcription. -/
theorem c6_witness :
    pyStrip " " = "" ∧ transcribe (.audioOk " ") = sampleTranscript :=
  ⟨by decide, c6_transcribe_never_empty.2.2.2 " " (by decide)⟩

/-- Claim C7, counterexample: a .txt file whose content ends in a newline is
not returned verbatim — `transcribe` strips it. -/
theorem c7_counterexample_not_verbatim :
    transcribe (.txt "build a todo app\n") ≠ "build a todo app\n" := by decide

/-- Claim C7, amended: for a .txt input whose stripped content is non-empty,
the transcript equals the file content with leading and trailing whitespace
stripped (Python str.strip), hence verbatim exactly when the content carries
no leading or trailing whitespace. -/
theorem c7_txt_bypass_stripped
    (content : String) (h : pyStrip content ≠ "") :
    transcribe (.txt content) = pyStrip content := by
  simp only [transcribe]
  split
  · next h0 => exact absurd h0 h
  · rfl

/-- Claim C7, witness for the amended theorem at a concrete file content. -/
theorem c7_witness :
    pyStrip "build a todo app\n" ≠ "" ∧
    transcribe (.txt "build a todo app\n") = pyStrip "build a todo app\n" :=
  ⟨by decide, c7_txt_bypass_stripped "build a todo app\n" (by decide)⟩

/-- Claim C8: for every pipeline state, the report's derived metrics equal
exactly the spec's formulas — timeSavedHours = 40 - executionTimeSeconds/3600,
costSaved = timeSavedHours * 150, avgCoverage = mean of the two coverages —
each computed from the PipelineState alone (with the code's `.get` defaults
of 0 for missing entries). -/
theorem c8_report_metric_formulas :
    ∀ state : PipelineState,
      create_report_content_metrics state =
        { time_saved_hours := spec_timeSavedHours (dictGet "execution_time" state.metrics 0)
        , cost_saved := spec_costSaved (dictGet "execution_time" state.metrics 0)
        , avg_coverage := spec_avgCoverage
            (dictGet "frontend" state.test_results defaultTestResult).coverage
            (dictGet "backend" state.test_results defaultTestResult).coverage } := by
  intro state
  rfl

/-- Claim C9, counterexample: stage 2 writes two fields, not exactly one —
at a concrete run both `user_stories` and `architecture` change when the
story stage executes. -/
theorem c9_counterexample_stage2_writes_two_fields :
    (stage2_stories demoEnv (stage1_transcription demoEnv initialState)).user_stories ≠
      (stage1_transcription demoEnv initialState).user_stories ∧
    (stage2_stories demoEnv (stage1_transcription demoEnv initialState)).architecture ≠
      (stage1_transcription demoEnv initialState).architecture := by
  constructor <;> decide

/-- Claim C9, amended: the pipeline state is populated append-only in stage
order — every stage leaves all fields other than its designated one(s)
unchanged and never mutates a field written by an earlier stage; stage 2 is
the one stage that writes two fields (user_stories and architecture). -/
theorem c9_append_only_frame :
    ∀ (env : Env) (project_name : String) (s : PipelineState),
      (stage1_transcription env s).user_stories = s.user_stories ∧
      (stage1_transcription env s).architecture = s.architecture ∧
      (stage1_transcription env s).generated_code = s.generated_code ∧
      (stage1_transcription env s).test_results = s.test_results ∧
      (stage1_transcription env s).deployment_urls = s.deployment_urls ∧
      (stage1_transcription env s).metrics = s.metrics ∧
      (stage2_stories env s).transcript = s.transcript ∧
      (stage2_stories env s).generated_code = s.generated_code ∧
      (stage2_stories env s).test_results = s.test_results ∧
      (stage2_stories env s).deployment_urls = s.deployment_urls ∧
      (stage2_stories env s).metrics = s.metrics ∧
      (stage3_codegen env project_name s).transcript = s.transcript ∧
      (stage3_codegen env project_name s).user_stories = s.user_stories ∧
      (stage3_codegen env project_name s).architecture = s.architecture ∧
      (stage3_codegen env project_name s).test_results = s.test_results ∧
      (stage3_codegen env project_name s).deployment_urls = s.deployment_urls ∧
      (stage3_codegen env project_name s).metrics = s.metrics ∧
      (stage4_tests env project_name s).transcript = s.transcript ∧
      (stage4_tests env project_name s).user_stories = s.user_stories ∧
      (stage4_tests env project_name s).architecture = s.architecture ∧
      (stage4_tests env project_name s).generated_code = s.generated_code ∧
      (stage4_tests env project_name s).deployment_urls = s.deployment_urls ∧
      (stage4_tests env project_name s).metrics = s.metrics ∧
      (stage5_deploy env project_name s).transcript = s.transcript ∧
      (stage5_deploy env project_name s).user_stories = s.user_stories ∧
      (stage5_deploy env project_name s).architecture = s.architecture ∧
      (stage5_deploy env project_name s).generated_code = s.generated_code ∧
      (stage5_deploy env project_name s).test_results = s.test_results ∧
      (stage5_deploy env project_name s).metrics = s.metrics ∧
      (stage6_metrics env s).transcript = s.transcript ∧
      (stage6_metrics env s).user_stories = s.user_stories ∧
      (stage6_metrics env s).architecture = s.architecture ∧
      (stage6_metrics env s).generated_code = s.generated_code ∧
      (stage6_metrics env s).test_results = s.test_results ∧
      (stage6_metrics env s).deployment_urls = s.deployment_urls := by
  intro env project_name s
  exact ⟨rfl, rfl, rfl, rfl, rfl, rfl, rfl, rfl, rfl, rfl, rfl, rfl, rfl, rfl, rfl,
    rfl, rfl, rfl, rfl, rfl, rfl, rfl, rfl, rfl, rfl, rfl, rfl, rfl, rfl, rfl,
    rfl, rfl, rfl, rfl, rfl⟩

/-- Claim C10: `generate_report` returns the output path on success and the
empty string when rendering or writing raises; the pipeline state `run`
returns is identical whether or not report generation fails, so `run` still
completes. -/
theorem c10_generate_report_contained :
    ∀ (state : PipelineState) (output_path msg : String) (env : Env) (project_name : String),
      generate_report .ok state output_path = output_path ∧
      generate_report (.raises msg) state output_path = "" ∧
      run { env with reportFs := .raises msg } project_name =
        run { env with reportFs := .ok } project_name := by
  intro state output_path msg env project_name
  exact ⟨rfl, rfl, rfl⟩

end ZoomToApp
